import Mathlib

/-!
Formal model of the build script `src/build.rs` of the `libversion-sys`
repository, together with proofs about its behaviour.

Embedding conventions:

* A filesystem path is the list of its components starting from the
  filesystem root, so `["opt", "ndk"]` stands for `/opt/ndk` and `[]`
  stands for the root `/` itself.  `Path::parent`, `Path::file_name` and
  `Path::join` become `parentOf`, `fileNameOf` and list append.
* The process environment is an association list from variable names to
  string values; an absent entry models both an unset variable and a
  non-Unicode value (both make `env::var` return `Err`).
* The pieces of the outside world that external crates consult are oracle
  inputs: the set of existing directories, the C compiler path that the
  `cc` crate resolves, the result of `Path::canonicalize`, the install
  directory returned by `cmake::Config::build`, the symbols bindgen finds
  in the headers, and whether writing the bindings file succeeds.
* `detect_android_ndk` (build.rs lines 14-42) and `main`
  (build.rs lines 44-84) are translated statement by statement over those
  inputs.
-/

namespace LibversionSys

/-- A filesystem path: the list of its components from the root.
`[]` is the filesystem root. -/
abbrev FsPath := List String

/-- `Path::parent`: `none` at the root, otherwise drop the last component. -/
def parentOf : FsPath → Option FsPath
  | [] => none
  | p => some p.dropLast

/-- The parent of the parent of a path. -/
def grandparentOf (p : FsPath) : Option FsPath :=
  (parentOf p).bind parentOf

/-- `Path::file_name`: the last component, `none` at the root. -/
def fileNameOf (p : FsPath) : Option String :=
  p.getLast?

/-- Split a character list at every slash. -/
def splitSlash : List Char → List (List Char)
  | [] => [[]]
  | c :: cs =>
      if c = '/' then [] :: splitSlash cs
      else
        match splitSlash cs with
        | [] => [[c]]
        | g :: gs => (c :: g) :: gs

/-- `PathBuf::from` on a string: split an absolute Unix-style path into its
components.  Empty components collapse, as in Rust `Path::components`,
which skips the root marker and repeated separators. -/
def pathFromString (s : String) : FsPath :=
  ((splitSlash s.toList).map (fun cs => String.mk cs)).filter (fun c => c ≠ "")

/-- The process environment: variable names mapped to string values. -/
abbrev EnvMap := List (String × String)

/-- Oracle view of the filesystem and of the external `cc` crate, fixed for
one build invocation. -/
structure Fsys where
  /-- The set of paths that exist and are directories (`Path::is_dir`). -/
  dirs : List FsPath
  /-- The compiler path produced by `cc::Build::try_get_compiler`, if that
  call succeeds (build.rs lines 26-31). -/
  ccPath : Option FsPath
  /-- `Path::canonicalize`, which may fail (build.rs line 32). -/
  canon : FsPath → Option FsPath

/-- `Path::is_dir` in the model. -/
def Fsys.isDir (fs : Fsys) (p : FsPath) : Bool :=
  fs.dirs.contains p

/-- The fixed ordered list of override variables checked first
(build.rs line 16). -/
def ndkEnvVars : List String :=
  ["ANDROID_NDK_ROOT", "ANDROID_NDK_HOME", "ANDROID_NDK"]

/-- Step 1 of `detect_android_ndk` (build.rs lines 16-23): walk the variable
list in order; a variable that is set and names an existing directory is
returned at once, any other variable is skipped. -/
def detectFromEnv (fs : Fsys) (env : EnvMap) : List String → Option FsPath
  | [] => none
  | v :: vs =>
    match env.lookup v with
    | some val =>
        let p := pathFromString val
        if fs.isDir p then some p else detectFromEnv fs env vs
    | none => detectFromEnv fs env vs

/-- The test applied to each ancestor directory in the upward walk
(build.rs lines 35-36): the directory is named `toolchains` and has an
`llvm` child directory. -/
def isToolchainsDir (fs : Fsys) (d : FsPath) : Bool :=
  (fileNameOf d == some "toolchains") && fs.isDir (d ++ ["llvm"])

/-- The upward walk of build.rs lines 34-41, phrased on the reversed
component list so that moving to the parent is structural recursion.
`rev` is the reversed path of the directory currently examined; the root
(empty path) has no file name and no parent, so the loop exits with
`none` there, exactly as `dir.parent()?` does. -/
def walkUpRev (fs : Fsys) : List String → Option FsPath
  | [] => none
  | c :: rest =>
      if isToolchainsDir fs ((c :: rest).reverse) then some rest.reverse
      else walkUpRev fs rest

/-- The upward walk from a starting directory. -/
def walkUp (fs : Fsys) (start : FsPath) : Option FsPath :=
  walkUpRev fs start.reverse

/-- The canonical compiler path of build.rs lines 26-32:
`try_get_compiler().ok()?` followed by `canonicalize().ok()?`. -/
def ccCanonical (fs : Fsys) : Option FsPath :=
  fs.ccPath.bind fs.canon

/-- `detect_android_ndk` (build.rs lines 14-42). -/
def detect_android_ndk (fs : Fsys) (env : EnvMap) : Option FsPath :=
  match detectFromEnv fs env ndkEnvVars with
  | some p => some p
  | none =>
      match ccCanonical fs with
      | none => none
      | some cp =>
          match parentOf cp with
          | none => none
          | some start => walkUp fs start

/-- The ancestor directories visited by the walk when it starts at the
directory whose reversed component list is `rev`: the directory itself,
then each proper ancestor, root excluded. -/
def ancestorsRev : List String → List FsPath
  | [] => []
  | c :: rest => (c :: rest).reverse :: ancestorsRev rest

/-- The ancestors of `p` visited by the walk: `p` itself, then each proper
ancestor down to (but excluding) the root. -/
def ancestorsOf (p : FsPath) : List FsPath :=
  ancestorsRev p.reverse

/-- A C symbol that bindgen discovers in the parsed headers: a function or a
variable-like constant. -/
inductive CSymbol where
  | func (name : String)
  | cvar (name : String)
  deriving DecidableEq, Repr

/-- Whether the first character list is an initial segment of the second. -/
def listStarts : List Char → List Char → Bool
  | [], _ => true
  | _ :: _, [] => false
  | a :: as, b :: bs => (a == b) && listStarts as bs

/-- Whether the string `s` starts with `pre`. -/
def strStarts (s pre : String) : Bool :=
  listStarts pre.toList s.toList

/-- The bindgen allowlist of build.rs lines 74-75: bindgen anchors the
allowlist regexes at both ends, so `version_compare.*` keeps exactly the
functions whose name starts with `version_compare`, and `VERSIONFLAG_.*`
keeps exactly the variables whose name starts with `VERSIONFLAG_`. -/
def allowlisted : CSymbol → Bool
  | .func n => strStarts n "version_compare"
  | .cvar n => strStarts n "VERSIONFLAG_"

/-- The interface generation step (build.rs lines 65-78): of everything
found in the headers, only the allowlisted symbols reach the output. -/
def generateBindings (header : List CSymbol) : List CSymbol :=
  header.filter allowlisted

/-- A cargo build directive printed by the build script. -/
inductive Directive where
  | searchNative (p : FsPath)
  | linkStatic (name : String)
  deriving DecidableEq, Repr

/-- Recognises the static-link directive. -/
def Directive.isLinkStatic : Directive → Bool
  | .linkStatic _ => true
  | _ => false

/-- Recognises the native search-path directive. -/
def Directive.isSearchNative : Directive → Bool
  | .searchNative _ => true
  | _ => false

/-- The cmake configuration assembled by `main` before `build()` is invoked
(build.rs lines 48-56). -/
structure CmakeConfig where
  srcDir : String
  buildTarget : String
  defines : List (String × FsPath)
  deriving DecidableEq, Repr

/-- All inputs of one run of `main`: environment, filesystem oracle, the
install directory that `cmake::Config::build` returns, the symbols bindgen
finds when parsing `wrapper.h` (`none` when generation fails), and whether
writing `bindings.rs` succeeds. -/
structure World where
  env : EnvMap
  fs : Fsys
  cmakeOut : FsPath
  headerSymbols : Option (List CSymbol)
  writeOk : Bool

/-- Build.rs line 45: `env::var("CARGO_CFG_TARGET_OS").unwrap_or_default()`. -/
def targetOs (w : World) : String :=
  (w.env.lookup "CARGO_CFG_TARGET_OS").getD ""

/-- The cmake configuration before the Android special case: source
directory `libversion`, build target `libversion_static`, no extra defines
(build.rs lines 48-49). -/
def baseConfig : CmakeConfig :=
  { srcDir := "libversion", buildTarget := "libversion_static", defines := [] }

/-- The cmake configuration after the Android special case of build.rs
lines 52-56: only when the target OS is `android` is the Locator invoked,
and only when it finds a root is `CMAKE_ANDROID_NDK` defined. -/
def cmakeConfigOf (w : World) : CmakeConfig :=
  if targetOs w = "android" then
    match detect_android_ndk w.fs w.env with
    | some ndk => { baseConfig with defines := [("CMAKE_ANDROID_NDK", ndk)] }
    | none => baseConfig
  else baseConfig

/-- The two cargo directives printed at build.rs lines 60-62: a native
search path at `<dst>/build/libversion` and a static link of `version`. -/
def directivesOf (w : World) : List Directive :=
  [Directive.searchNative (w.cmakeOut ++ ["build", "libversion"]),
   Directive.linkStatic "version"]

/-- The observable outcome of `main`: either a completed run (with the
cmake configuration used, the directives printed and the bindings written)
or a fatal abort with the message of the `expect`/`unwrap` that fired. -/
inductive BuildOutcome where
  | ok (cfg : CmakeConfig) (directives : List Directive) (bindings : List CSymbol)
  | fatal (msg : String)
  deriving DecidableEq, Repr

/-- `main` (build.rs lines 44-84).  The cmake configuration and the two
directives are produced first; then bindgen generation either fails fatally
(`expect` at line 78), or the `OUT_DIR` lookup fails fatally (`unwrap` at
line 80), or the write of `bindings.rs` fails fatally (`expect` at line
83), or the run completes. -/
def mainRun (w : World) : BuildOutcome :=
  let cfg := cmakeConfigOf w
  let dirs := directivesOf w
  match w.headerSymbols with
  | none => .fatal "Unable to generate bindings"
  | some syms =>
      match w.env.lookup "OUT_DIR" with
      | none => .fatal "OUT_DIR is not set"
      | some _ =>
          if w.writeOk then .ok cfg dirs (generateBindings syms)
          else .fatal "failed to write bindings"

/-! ## Helper lemmas -/

/-- The env-var scan is a first-match search over the paths of the set
variables, in the fixed order of the variable list. -/
def envCandidates (env : EnvMap) (vars : List String) : List FsPath :=
  (vars.filterMap (fun v => env.lookup v)).map pathFromString

theorem detectFromEnv_eq_find (fs : Fsys) (env : EnvMap) (vars : List String) :
    detectFromEnv fs env vars = (envCandidates env vars).find? fs.isDir := by
  induction vars with
  | nil => rfl
  | cons v vs ih =>
      unfold detectFromEnv envCandidates
      cases h : env.lookup v with
      | none => simpa [envCandidates, h] using ih
      | some val =>
          simp only [envCandidates, List.filterMap_cons, h, List.map_cons,
            List.find?_cons]
          cases hd : fs.isDir (pathFromString val) with
          | true => simp [hd]
          | false => simpa [envCandidates, hd] using ih

theorem detectFromEnv_none_of_unset (fs : Fsys) (env : EnvMap)
    (vars : List String) (h : ∀ v ∈ vars, env.lookup v = none) :
    detectFromEnv fs env vars = none := by
  rw [detectFromEnv_eq_find]
  have : envCandidates env vars = [] := by
    unfold envCandidates
    rw [List.filterMap_eq_nil_iff.mpr]
    · rfl
    · intro v hv
      simp [h v hv]
  rw [this]
  rfl

/-- The walk is exactly: find the first visited ancestor satisfying the
toolchains test, and return its parent (`dropLast`). -/
theorem walkUpRev_eq_find (fs : Fsys) (rev : List String) :
    walkUpRev fs rev
      = ((ancestorsRev rev).find? (isToolchainsDir fs)).map List.dropLast := by
  induction rev with
  | nil => rfl
  | cons c rest ih =>
      unfold walkUpRev ancestorsRev
      rw [List.find?_cons]
      cases h : isToolchainsDir fs ((c :: rest).reverse) with
      | true => simp [List.dropLast_concat]
      | false => simpa using ih

theorem walkUp_eq_find (fs : Fsys) (start : FsPath) :
    walkUp fs start
      = ((ancestorsOf start).find? (isToolchainsDir fs)).map List.dropLast := by
  unfold walkUp ancestorsOf
  exact walkUpRev_eq_find fs start.reverse

/-- A directory passing the toolchains test is not the root, so its parent
exists and is `dropLast`. -/
theorem parentOf_of_isToolchainsDir (fs : Fsys) (d : FsPath)
    (h : isToolchainsDir fs d = true) : parentOf d = some d.dropLast := by
  unfold isToolchainsDir fileNameOf at h
  rw [Bool.and_eq_true] at h
  have hne : d ≠ [] := by
    intro hnil
    subst hnil
    simp at h
  cases d with
  | nil => exact absurd rfl hne
  | cons a as => rfl

/-! ## Concrete fixtures used by counterexamples and witnesses -/

/-- An NDK-style filesystem: the compiler lives at
`/opt/ndk/toolchains/llvm/prebuilt/linux-x86_64/bin/clang` and
`/opt/ndk/toolchains` has an `llvm` child directory.  Canonicalisation is
the identity. -/
def fs1 : Fsys :=
  { dirs := [["opt"], ["opt", "ndk"], ["opt", "ndk", "toolchains"],
             ["opt", "ndk", "toolchains", "llvm"]],
    ccPath := some ["opt", "ndk", "toolchains", "llvm", "prebuilt",
                    "linux-x86_64", "bin", "clang"],
    canon := fun p => some p }

/-- An empty environment: no override variable is set. -/
def env1 : EnvMap := []

/-! ## Claim C1 -/

/-- Claim C1, as stated, is false: with no override variable set and the
compiler under `/opt/ndk/toolchains/llvm/...`, the matching ancestor is
`/opt/ndk/toolchains`, the Locator returns its parent `/opt/ndk`, but the
grandparent of the `toolchains` directory is `/opt`, a different path. -/
theorem C1_counterexample :
    (∀ v ∈ ndkEnvVars, env1.lookup v = none) ∧
    (ancestorsOf ["opt", "ndk", "toolchains", "llvm", "prebuilt",
        "linux-x86_64", "bin"]).find? (isToolchainsDir fs1)
      = some ["opt", "ndk", "toolchains"] ∧
    grandparentOf ["opt", "ndk", "toolchains"] = some ["opt"] ∧
    detect_android_ndk fs1 env1 = some ["opt", "ndk"] ∧
    (some ["opt", "ndk"] : Option FsPath) ≠ some ["opt"] := by
  refine ⟨by decide, by decide, by decide, by decide, by decide⟩

/-- Claim C1 (amended): if no override variable is set, the compiler
resolves to a canonical path, and the first visited ancestor that is a
`toolchains` directory with an `llvm` child is `d`, then
`detect_android_ndk` returns exactly the parent (not the grandparent) of
that `toolchains` directory. -/
theorem C1_parent_of_toolchains (fs : Fsys) (env : EnvMap)
    (hnoenv : ∀ v ∈ ndkEnvVars, env.lookup v = none)
    (cp d : FsPath)
    (hcc : ccCanonical fs = some cp)
    (hfind : (ancestorsOf cp.dropLast).find? (isToolchainsDir fs) = some d) :
    detect_android_ndk fs env = parentOf d := by
  unfold detect_android_ndk
  rw [detectFromEnv_none_of_unset fs env ndkEnvVars hnoenv, hcc]
  cases cp with
  | nil => simp [ancestorsOf, ancestorsRev] at hfind
  | cons a as =>
      show walkUp fs ((a :: as).dropLast) = parentOf d
      rw [walkUp_eq_find, hfind]
      have hd : isToolchainsDir fs d = true := List.find?_some hfind
      rw [parentOf_of_isToolchainsDir fs d hd]
      rfl

/-- Witness for the amended C1 at the concrete NDK filesystem. -/
theorem C1_parent_of_toolchains_witness :
    detect_android_ndk fs1 env1 = parentOf ["opt", "ndk", "toolchains"] :=
  C1_parent_of_toolchains fs1 env1 (by decide)
    ["opt", "ndk", "toolchains", "llvm", "prebuilt", "linux-x86_64", "bin",
     "clang"]
    ["opt", "ndk", "toolchains"] (by rfl) (by decide)

/-! ## Claim C2 -/

/-- Claim C2: when the env-var step finds nothing and the compiler has a
canonical path whose parent directory is `start`, the Locator walks the
visited ancestors of `start` in upward order, and its result is the parent
of the first ancestor that is named `toolchains` and has an `llvm` child
directory (and `none` when no visited ancestor matches). -/
theorem C2_first_ancestor (fs : Fsys) (env : EnvMap)
    (hnoenv : detectFromEnv fs env ndkEnvVars = none)
    (cp start : FsPath)
    (hcc : ccCanonical fs = some cp)
    (hstart : parentOf cp = some start) :
    detect_android_ndk fs env
      = Option.bind ((ancestorsOf start).find? (isToolchainsDir fs))
          parentOf := by
  unfold detect_android_ndk
  rw [hnoenv, hcc]
  cases cp with
  | nil => exact absurd hstart (by simp [parentOf])
  | cons a as =>
      have hs : (a :: as).dropLast = start :=
        Option.some.inj (hstart : some ((a :: as).dropLast) = some start)
      show walkUp fs ((a :: as).dropLast) = _
      rw [hs, walkUp_eq_find]
      cases hf : (ancestorsOf start).find? (isToolchainsDir fs) with
      | none => rfl
      | some d =>
          have hd : isToolchainsDir fs d = true := List.find?_some hf
          simp [parentOf_of_isToolchainsDir fs d hd]

/-- Witness for C2 at the concrete NDK filesystem. -/
theorem C2_first_ancestor_witness :
    detect_android_ndk fs1 env1
      = Option.bind ((ancestorsOf ["opt", "ndk", "toolchains", "llvm",
          "prebuilt", "linux-x86_64", "bin"]).find? (isToolchainsDir fs1))
          parentOf :=
  C2_first_ancestor fs1 env1 (by rfl)
    ["opt", "ndk", "toolchains", "llvm", "prebuilt", "linux-x86_64", "bin",
     "clang"]
    ["opt", "ndk", "toolchains", "llvm", "prebuilt", "linux-x86_64", "bin"]
    (by rfl) (by rfl)

/-! ## Claim C3 -/

/-- Claim C3: when two or more override variables are set, the Locator
returns the path of the earliest variable in the fixed order
`ANDROID_NDK_ROOT`, `ANDROID_NDK_HOME`, `ANDROID_NDK` whose value is an
existing directory; a variable that is set but does not name a directory
is skipped.  The first-match search over the set values in that order is
exactly `List.find?` over `envCandidates`. -/
theorem C3_env_priority (fs : Fsys) (env : EnvMap) (p : FsPath)
    (_hset : 2 ≤ (ndkEnvVars.filterMap (fun v => env.lookup v)).length)
    (hfirst : (envCandidates env ndkEnvVars).find? fs.isDir = some p) :
    detect_android_ndk fs env = some p := by
  unfold detect_android_ndk
  rw [detectFromEnv_eq_find, hfirst]

/-- A filesystem in which only `/opt/ndk2` exists and the compiler does not
resolve. -/
def fs3 : Fsys :=
  { dirs := [["opt", "ndk2"]], ccPath := none, canon := fun _ => none }

/-- An environment with two override variables set: the earlier one names
a missing path, the later one an existing directory. -/
def env3 : EnvMap :=
  [("ANDROID_NDK_ROOT", "/missing/dir"), ("ANDROID_NDK_HOME", "/opt/ndk2")]

/-- Witness for C3: `ANDROID_NDK_ROOT` is set but not a directory, so the
set `ANDROID_NDK_HOME` directory wins. -/
theorem C3_env_priority_witness :
    detect_android_ndk fs3 env3 = some ["opt", "ndk2"] :=
  C3_env_priority fs3 env3 ["opt", "ndk2"] (by decide) (by decide)

/-! ## Claim C4 -/

/-- Claim C4: whenever no override variable yields a directory and either
the compiler cannot be resolved or no visited ancestor of the compiler
directory passes the toolchains test, `detect_android_ndk` evaluates to
`none` — it is a total function into `Option`, with no abort path. -/
theorem C4_not_found_is_none (fs : Fsys) (env : EnvMap)
    (hnoenv : (envCandidates env ndkEnvVars).find? fs.isDir = none)
    (hwalk : ∀ cp, ccCanonical fs = some cp →
        ∀ a ∈ ancestorsOf cp.dropLast, isToolchainsDir fs a = false) :
    detect_android_ndk fs env = none := by
  unfold detect_android_ndk
  rw [detectFromEnv_eq_find, hnoenv]
  cases hcc : ccCanonical fs with
  | none => rfl
  | some cp =>
      cases cp with
      | nil => rfl
      | cons a as =>
          show walkUp fs ((a :: as).dropLast) = none
          have h := hwalk (a :: as) hcc
          have hnone :
              (ancestorsOf ((a :: as).dropLast)).find? (isToolchainsDir fs)
                = none :=
            List.find?_eq_none.mpr (fun x hx => by simp [h x hx])
          rw [walkUp_eq_find, hnone]
          rfl

/-- A plain filesystem: the compiler is `/usr/bin/cc` and no ancestor is a
`toolchains` directory. -/
def fs4 : Fsys :=
  { dirs := [["usr"], ["usr", "bin"]], ccPath := some ["usr", "bin", "cc"],
    canon := fun p => some p }

/-- Witness for C4: empty environment, ordinary compiler location, the
Locator reports not-found. -/
theorem C4_not_found_is_none_witness :
    detect_android_ndk fs4 env1 = none :=
  C4_not_found_is_none fs4 env1 (by decide)
    (by
      intro cp hcp
      obtain rfl : cp = ["usr", "bin", "cc"] :=
        (Option.some.inj
          (hcp : (some ["usr", "bin", "cc"] : Option FsPath) = some cp)).symm
      decide)

/-! ## Claim C5 -/

/-- Claim C5: the `CMAKE_ANDROID_NDK` define is attached to the cmake
configuration only when `CARGO_CFG_TARGET_OS` is `android`; for every
other target the configuration equals `baseConfig`, whatever the
filesystem and environment the Locator would see. -/
theorem C5_android_only_define (w : World) :
    (targetOs w ≠ "android" → cmakeConfigOf w = baseConfig) ∧
    (∀ p, ("CMAKE_ANDROID_NDK", p) ∈ (cmakeConfigOf w).defines →
        targetOs w = "android") := by
  constructor
  · intro h
    simp [cmakeConfigOf, h]
  · intro p hp
    by_contra hn
    rw [show cmakeConfigOf w = baseConfig from by simp [cmakeConfigOf, hn]]
      at hp
    simp [baseConfig] at hp

/-- A world targeting Linux with an NDK-free filesystem. -/
def w5 : World :=
  { env := [("CARGO_CFG_TARGET_OS", "linux"), ("OUT_DIR", "/out")],
    fs := fs4, cmakeOut := ["build", "out"], headerSymbols := some [],
    writeOk := true }

/-- Witness for C5: targeting Linux, the configuration is the base one. -/
theorem C5_android_only_define_witness : cmakeConfigOf w5 = baseConfig :=
  (C5_android_only_define w5).1 (by decide)

/-! ## Claim C6 -/

/-- Claim C6: with no override variable set and a non-Android target, the
build emits exactly one static-link directive, for archive `version`, and
exactly one native search-path directive, at the `build/libversion`
subdirectory of the cmake output directory. -/
theorem C6_two_directives (w : World)
    (_hnoenv : ∀ v ∈ ndkEnvVars, w.env.lookup v = none)
    (_hos : targetOs w ≠ "android") :
    (directivesOf w).filter Directive.isLinkStatic
      = [Directive.linkStatic "version"] ∧
    (directivesOf w).filter Directive.isSearchNative
      = [Directive.searchNative (w.cmakeOut ++ ["build", "libversion"])] :=
  ⟨rfl, rfl⟩

/-- Witness for C6 at the Linux world. -/
theorem C6_two_directives_witness :
    (directivesOf w5).filter Directive.isLinkStatic
      = [Directive.linkStatic "version"] ∧
    (directivesOf w5).filter Directive.isSearchNative
      = [Directive.searchNative (w5.cmakeOut ++ ["build", "libversion"])] :=
  C6_two_directives w5 (by decide) (by decide)

/-! ## Claim C7 -/

/-- Claim C7: targeting Android with `ANDROID_NDK_ROOT` set to an existing
directory, the cmake configuration carries exactly that path — the literal
conversion of the variable value, not its canonicalisation — as the value
of `CMAKE_ANDROID_NDK`. -/
theorem C7_exact_override (w : World) (val : String)
    (hos : targetOs w = "android")
    (hset : w.env.lookup "ANDROID_NDK_ROOT" = some val)
    (hdir : w.fs.isDir (pathFromString val) = true) :
    (cmakeConfigOf w).defines = [("CMAKE_ANDROID_NDK", pathFromString val)]
    := by
  have hdet : detect_android_ndk w.fs w.env = some (pathFromString val) := by
    have henv : detectFromEnv w.fs w.env ndkEnvVars
        = some (pathFromString val) := by
      simp only [ndkEnvVars, detectFromEnv, hset, hdir, if_true]
    unfold detect_android_ndk
    rw [henv]
  simp [cmakeConfigOf, hos, hdet, baseConfig]

/-- A filesystem where `/opt/ndk` exists and canonicalisation moves every
path somewhere else, showing that the override value is never
canonicalised. -/
def fs7 : Fsys :=
  { dirs := [["opt", "ndk"]], ccPath := some ["usr", "bin", "cc"],
    canon := fun _ => some ["somewhere", "else"] }

/-- A world targeting Android with `ANDROID_NDK_ROOT` set to `/opt/ndk`. -/
def w7 : World :=
  { env := [("CARGO_CFG_TARGET_OS", "android"),
            ("ANDROID_NDK_ROOT", "/opt/ndk"), ("OUT_DIR", "/out")],
    fs := fs7, cmakeOut := ["build", "out"], headerSymbols := some [],
    writeOk := true }

/-- Witness for C7: the define holds the literal `/opt/ndk` path. -/
theorem C7_exact_override_witness :
    (cmakeConfigOf w7).defines
      = [("CMAKE_ANDROID_NDK", pathFromString "/opt/ndk")] :=
  C7_exact_override w7 "/opt/ndk" (by decide) (by decide) (by decide)

/-! ## Claim C8 -/

/-- A header surface with two comparison functions, one unrelated
function, two flag constants and one unrelated constant. -/
def exampleHeader : List CSymbol :=
  [.func "version_compare2", .func "version_compare4", .func "version_sort",
   .cvar "VERSIONFLAG_P_IS_PATCH", .cvar "VERSIONFLAG_ANY_IS_PATCH",
   .cvar "ZLIB_VERNUM"]

/-- Claim C8: a symbol appears in the generated bindings exactly when it
occurs in the headers and matches the allowlist (function names matching
`version_compare.*`, constant names matching `VERSIONFLAG_.*`); on the
example header the two comparison functions and the two flag constants are
kept and the unrelated function and constant are dropped. -/
theorem C8_allowlist_filter :
    (∀ (header : List CSymbol) (s : CSymbol),
        s ∈ generateBindings header ↔ s ∈ header ∧ allowlisted s = true) ∧
    generateBindings exampleHeader
      = [.func "version_compare2", .func "version_compare4",
         .cvar "VERSIONFLAG_P_IS_PATCH", .cvar "VERSIONFLAG_ANY_IS_PATCH"]
    := by
  constructor
  · intro header s
    simp [generateBindings, List.mem_filter]
  · decide

/-! ## Claim C9 -/

/-- Claim C9: if bindgen generation fails, `main` aborts with the
generation `expect` message; if the generated file cannot be written,
`main` aborts with the write `expect` message; and a completed run is
possible only when generation succeeded and the write succeeded — there is
no partial or degraded outcome. -/
theorem C9_fatal_abort (w : World) :
    (w.headerSymbols = none →
        mainRun w = .fatal "Unable to generate bindings") ∧
    (∀ syms od, w.headerSymbols = some syms →
        w.env.lookup "OUT_DIR" = some od → w.writeOk = false →
        mainRun w = .fatal "failed to write bindings") ∧
    (∀ cfg ds bs, mainRun w = .ok cfg ds bs →
        w.headerSymbols.isSome = true ∧ w.writeOk = true) := by
  refine ⟨?_, ?_, ?_⟩
  · intro h
    simp [mainRun, h]
  · intro syms od h1 h2 h3
    simp [mainRun, h1, h2, h3]
  · intro cfg ds bs h
    unfold mainRun at h
    cases hh : w.headerSymbols with
    | none =>
        rw [hh] at h
        cases h
    | some syms =>
        rw [hh] at h
        cases ho : w.env.lookup "OUT_DIR" with
        | none =>
            rw [ho] at h
            cases h
        | some od =>
            rw [ho] at h
            cases hw : w.writeOk with
            | false =>
                rw [hw] at h
                simp at h
            | true => exact ⟨by simp [hh], rfl⟩

/-- A world whose header parse fails. -/
def w9 : World :=
  { env := [("OUT_DIR", "/out")], fs := fs4, cmakeOut := ["build", "out"],
    headerSymbols := none, writeOk := true }

/-- A world whose bindings file cannot be written. -/
def w9b : World :=
  { env := [("OUT_DIR", "/out")], fs := fs4, cmakeOut := ["build", "out"],
    headerSymbols := some [], writeOk := false }

/-- Witness for C9: both failure modes abort fatally. -/
theorem C9_fatal_abort_witness :
    mainRun w9 = .fatal "Unable to generate bindings" ∧
    mainRun w9b = .fatal "failed to write bindings" :=
  ⟨(C9_fatal_abort w9).1 rfl,
   (C9_fatal_abort w9b).2.1 [] "/out" rfl rfl rfl⟩

/-! ## Claim C10 -/

/-- Claim C10: with `CARGO_CFG_TARGET_OS` absent, the target OS defaults
to the empty string, the cmake configuration is the base one whatever the
Locator would have answered, and the run completes normally whenever the
generation steps succeed. -/
theorem C10_unset_target_os (w : World)
    (h : w.env.lookup "CARGO_CFG_TARGET_OS" = none) :
    targetOs w = "" ∧ cmakeConfigOf w = baseConfig ∧
    (∀ syms od, w.headerSymbols = some syms →
        w.env.lookup "OUT_DIR" = some od → w.writeOk = true →
        mainRun w = .ok baseConfig (directivesOf w) (generateBindings syms))
    := by
  have ht : targetOs w = "" := by simp [targetOs, h]
  have hc : cmakeConfigOf w = baseConfig := by simp [cmakeConfigOf, ht]
  refine ⟨ht, hc, ?_⟩
  intro syms od h1 h2 h3
  simp [mainRun, h1, h2, h3, hc]

/-- A world with no `CARGO_CFG_TARGET_OS`, over the NDK filesystem the
Locator would succeed on, showing the Locator result is never consulted. -/
def w10 : World :=
  { env := [("OUT_DIR", "/out")], fs := fs1, cmakeOut := ["build", "out"],
    headerSymbols := some exampleHeader, writeOk := true }

/-- Witness for C10: the run completes with the base configuration. -/
theorem C10_unset_target_os_witness :
    mainRun w10
      = .ok baseConfig (directivesOf w10) (generateBindings exampleHeader) :=
  (C10_unset_target_os w10 (by decide)).2.2 exampleHeader "/out" rfl
    (by decide) rfl

end LibversionSys
